import Mathlib

/-!
Formal model of the chat pipeline of this repository: the HTTP handler
`POST` in `src/app/api/chat/route.ts`, the client loop `sendMessage` in
`src/app/components/ChatBox.tsx`, and a spec-modelled vector-index
`search` (the index implementation lives in the backend service, outside
the TypeScript files modelled here).
-/

/-- A chat message `{role, content}` as used in `route.ts` and
`ChatBox.tsx`.  At runtime `role` is an arbitrary string; the code only
ever compares it against `"user"`. -/
structure Message where
  role : String
  content : String
  deriving DecidableEq, Repr

/-- A history entry `{role, parts: [{text}]}` handed to `startChat` in
`route.ts`: the role mapped to `"user"` or `"model"`, and a one-element
parts array holding the message content. -/
structure HistoryEntry where
  role : String
  parts : List String
  deriving DecidableEq, Repr

/-- `route.ts` lines 88-91: `{ role: msg.role === "user" ? "user" :
"model", parts: [{ text: msg.content }] }`. -/
def toHistoryEntry (m : Message) : HistoryEntry :=
  ⟨if m.role = "user" then "user" else "model", [m.content]⟩

/-- The parsed `messages` field of the request body, JS-faithfully:
`missing` is any falsy value (rejected by `!messages`), `notArray` a
truthy non-array value (rejected by `!Array.isArray(messages)`), and
`arr` an actual array.  Note an empty array is truthy, so it reaches the
`arr` case. -/
inductive MessagesField
  | missing
  | notArray
  | arr (msgs : List Message)
  deriving DecidableEq, Repr

/-- Behaviour of the single `chat.sendMessageStream(latestMessage)` call:
either the awaited call itself rejects, or it is accepted and the async
iterator `result.stream` yields the fragments `frags` in order and then
either ends normally (`failed = false`) or throws (`failed = true`). -/
inductive GenCall
  | accepted (frags : List String) (failed : Bool)
  | rejected
  deriving DecidableEq, Repr

/-- One controller action on the `ReadableStream` built in `route.ts`:
`controller.enqueue` of a text fragment, `controller.close`, or
`controller.error`. -/
inductive StreamEvent
  | data (s : String)
  | close
  | errEv
  deriving DecidableEq, Repr

/-- The event sequence emitted by the `start(controller)` body in
`route.ts` lines 105-118: each upstream fragment is enqueued as it
arrives; when the iteration ends `controller.close()` fires; if the
iteration throws after the fragments in `frags` were received,
`controller.error(error)` fires instead. -/
def runStream (frags : List String) (failed : Bool) : List StreamEvent :=
  frags.map StreamEvent.data ++ [if failed then StreamEvent.errEv else StreamEvent.close]

/-- The streamed HTTP response `new Response(stream, {headers})`: the body
is exactly the event stream.  No source-citation payload of any kind is
produced anywhere in `route.ts`; the `citations` field records what, if
anything, follows the text stream, hence it is `none` for this handler. -/
structure StreamResponse where
  events : List StreamEvent
  citations : Option (List String)
  deriving DecidableEq, Repr

/-- Result of the POST handler: either a JSON error response
`NextResponse.json({error}, {status})` or the streamed response. -/
inductive PostResult
  | jsonError (status : Nat)
  | streamOk (resp : StreamResponse)
  deriving DecidableEq, Repr

/-- Arguments of the generation call: the `history` given to `startChat`
and the `latestMessage` given to `sendMessageStream`. -/
structure GenRequest where
  history : List HistoryEntry
  latest : String
  deriving DecidableEq, Repr

/-- The handler `POST` of `route.ts` lines 57-140, as a function of the
parsed `messages` field and of the behaviour of the generation call.  It
returns the HTTP result together with the generation request actually
issued (`none` when `sendMessageStream` is never reached).
Control flow of the source: a falsy or non-array `messages` returns JSON
400 before anything else; for an array, `history` is built from all but
the last element and `messages[messages.length - 1].content` is read —
for an empty array that reads `.content` of `undefined`, which throws and
is caught by the outer `catch`, yielding JSON 500 without any generation
call; otherwise `sendMessageStream` is awaited: a rejection lands in the
same `catch` (JSON 500), and an accepted call yields the streamed
response. -/
def POST (body : MessagesField) (gen : GenCall) : PostResult × Option GenRequest :=
  match body with
  | .missing => (.jsonError 400, none)
  | .notArray => (.jsonError 400, none)
  | .arr msgs =>
    match msgs.getLast? with
    | none => (.jsonError 500, none)
    | some last =>
      let req : GenRequest := ⟨msgs.dropLast.map toHistoryEntry, last.content⟩
      match gen with
      | .rejected => (.jsonError 500, some req)
      | .accepted frags failed =>
        (.streamOk ⟨runStream frags failed, none⟩, some req)

/-- What, if anything, follows the text stream as a citation list. -/
def resultCitations : PostResult → Option (List String)
  | .streamOk r => r.citations
  | .jsonError _ => none

/-- The stream events of a streamed result, if the result is streamed. -/
def resultEvents : PostResult → Option (List StreamEvent)
  | .streamOk r => some r.events
  | .jsonError _ => none

/-- Number of `sendMessageStream` invocations a request performs. -/
def genCalls (r : PostResult × Option GenRequest) : Nat :=
  match r.2 with
  | none => 0
  | some _ => 1

/-- Texts of the `data` events of a stream, in emission order. -/
def dataTexts : List StreamEvent → List String
  | [] => []
  | StreamEvent.data s :: rest => s :: dataTexts rest
  | StreamEvent.close :: rest => dataTexts rest
  | StreamEvent.errEv :: rest => dataTexts rest

/-- A terminal controller action (`close` or `error`). -/
def isTerminal : StreamEvent → Bool
  | StreamEvent.data _ => false
  | StreamEvent.close => true
  | StreamEvent.errEv => true

/-- The fixed apology text `ChatBox.tsx` line 101 shows whenever
`sendMessage` lands in its `catch` block. -/
def canned : String := "抱歉，出现了一些问题。请稍后再试。"

/-- The React state read and written by `sendMessage`. -/
structure ChatState where
  messages : List Message
  input : String
  isLoading : Bool
  deriving DecidableEq, Repr

/-- The fetch to the chat API as observed by `sendMessage`: `notOk` when
`!response.ok` (the code throws and lands in `catch`); `noBody` when
`response.body` is undefined (the reader is undefined and the read loop
is skipped); `okStream frags failed` when the reader yields the decoded
fragments `frags` and then either reports `done` (`failed = false`) or
rejects mid-stream (`failed = true`). -/
inductive FetchResult
  | notOk
  | noBody
  | okStream (frags : List String) (failed : Bool)
  deriving DecidableEq, Repr

/-- The JavaScript guard `!input.trim()`: true exactly when the input is
empty or consists only of whitespace characters (the built-in `trim`
strips leading and trailing whitespace, and the result is falsy only when
it is the empty string). -/
def isBlank (s : String) : Bool := s.data.all Char.isWhitespace

/-- Value of the accumulator `assistantMessage` after `n` iterations of
the read loop in `ChatBox.tsx` lines 81-93: the left fold of
`assistantMessage += text` over the first `n` fragments. -/
def answerAfter (frags : List String) (n : Nat) : String :=
  (frags.take n).foldl (· ++ ·) ""

/-- `sendMessage` of `ChatBox.tsx` lines 47-107 as a function of the
current React state and of the fetch behaviour, returning the final state
and whether a network request was issued.  The guard at line 48 returns
immediately on blank input or while loading.  Otherwise the user message
is appended, the input cleared, and after the stream: a thrown error
(`notOk` or a mid-stream rejection) makes the `catch` block replace the
exchange tail with the canned apology; a completed stream with at least
one fragment leaves the accumulated assistant message in place; a
completed empty stream (or an absent body) never runs an in-loop
`setMessages`, so no assistant message is appended.  `finally` clears
`isLoading`. -/
def sendMessage (st : ChatState) (res : FetchResult) : ChatState × Bool :=
  if isBlank st.input = true ∨ st.isLoading = true then (st, false)
  else
    let newMessages := st.messages ++ [⟨"user", st.input⟩]
    let finalMessages :=
      match res with
      | .notOk => newMessages ++ [⟨"assistant", canned⟩]
      | .noBody => newMessages
      | .okStream frags failed =>
        if failed then newMessages ++ [⟨"assistant", canned⟩]
        else if frags.isEmpty then newMessages
        else newMessages ++ [⟨"assistant", answerAfter frags frags.length⟩]
    (⟨finalMessages, "", false⟩, true)

/-- Modelled from the spec: a Vector Index Entry `(chunk id, vector,
chunk text, source path)` keyed by a unique chunk id.  The Vector Index
itself is implemented in the backend service, whose sources are not among
the files modelled above; its contract is taken from the specification.
Chunk ids are modelled as naturals so that the specified deterministic
tie-break "by chunk id ascending" is available. -/
structure IndexEntry where
  chunkId : Nat
  vec : List Rat
  text : String
  sourcePath : String
  deriving DecidableEq, Repr

/-- Modelled from the spec: the result of `search` — a `ConfigError` for
an invalid `k`, or the scored entries. -/
inductive SearchOutcome
  | configError
  | ok (results : List (IndexEntry × Rat))
  deriving DecidableEq, Repr

/-- Modelled from the spec: the result ordering of a Retrieval Result —
descending similarity score, ties broken by chunk id ascending for
determinism. -/
def searchRel (a b : IndexEntry × Rat) : Prop :=
  b.2 < a.2 ∨ (a.2 = b.2 ∧ a.1.chunkId ≤ b.1.chunkId)

instance (a b : IndexEntry × Rat) : Decidable (searchRel a b) := by
  unfold searchRel; infer_instance

instance : IsTotal (IndexEntry × Rat) searchRel := by
  constructor
  intro a b
  rcases lt_trichotomy a.2 b.2 with h | h | h
  · exact Or.inr (Or.inl h)
  · rcases Nat.le_total a.1.chunkId b.1.chunkId with hc | hc
    · exact Or.inl (Or.inr ⟨h, hc⟩)
    · exact Or.inr (Or.inr ⟨h.symm, hc⟩)
  · exact Or.inl (Or.inl h)

instance : IsTrans (IndexEntry × Rat) searchRel := by
  constructor
  intro a b c hab hbc
  rcases hab with hab | ⟨hab, hab2⟩
  · rcases hbc with hbc | ⟨hbc, _⟩
    · exact Or.inl (hbc.trans hab)
    · exact Or.inl (hbc ▸ hab)
  · rcases hbc with hbc | ⟨hbc, hbc2⟩
    · exact Or.inl (hab ▸ hbc)
    · exact Or.inr ⟨hab.trans hbc, hab2.trans hbc2⟩

/-- Modelled from the spec: `search(query_vector, k)` of the Vector
Index.  `k ≤ 0` fails with `ConfigError`; otherwise every entry is scored
against the query with the similarity metric `sim` (the spec fixes cosine
similarity as the reference metric; the ordering and uniqueness contract
below holds for any metric, so the metric is a parameter), the scored
entries are sorted descending by score with the chunk-id tie-break, and
the first `k` are returned — all of them, unpadded, when the index holds
fewer than `k`. -/
def search (index : List IndexEntry) (sim : List Rat → List Rat → Rat)
    (q : List Rat) (k : Int) : SearchOutcome :=
  if k ≤ 0 then .configError
  else .ok (((index.map (fun e => (e, sim e.vec q))).insertionSort searchRel).take k.toNat)

/-! ## Helper lemmas -/

theorem foldl_strAppend_shift (l : List String) (acc : String) :
    l.foldl (· ++ ·) acc = acc ++ l.foldl (· ++ ·) "" := by
  induction l generalizing acc with
  | nil => simp [List.foldl_nil, String.append_empty]
  | cons f rest ih =>
    simp only [List.foldl_cons]
    rw [ih (acc ++ f), ih ("" ++ f), String.empty_append, String.append_assoc]

theorem answerAfter_succ (frags : List String) (n : Nat) :
    answerAfter frags (n + 1) = answerAfter frags n ++ (frags[n]?.getD "") := by
  unfold answerAfter
  rw [List.take_succ, List.foldl_append, foldl_strAppend_shift]
  cases h : frags[n]? with
  | none => simp [List.foldl_nil, String.append_empty]
  | some a => simp [List.foldl_cons, List.foldl_nil, String.empty_append]

theorem strLength_pos (s : String) (h : s ≠ "") : 0 < s.length := by
  cases s with
  | mk data =>
    cases data with
    | nil => exact absurd rfl h
    | cons c cs => simp [String.length]

theorem dataTexts_append (l₁ l₂ : List StreamEvent) :
    dataTexts (l₁ ++ l₂) = dataTexts l₁ ++ dataTexts l₂ := by
  induction l₁ with
  | nil => rfl
  | cons e rest ih => cases e <;> simp [dataTexts, ih]

theorem dataTexts_map_data (l : List String) :
    dataTexts (l.map StreamEvent.data) = l := by
  induction l with
  | nil => rfl
  | cons s rest ih => simp [dataTexts, ih]

/-! ## Claim theorems -/

/-- **C1 (amended)**: during streaming the partial answer observed by the
caller is append-only — after each fragment the new partial answer is the
previous one with exactly the received fragment appended, so its length
never decreases and it is never rolled back; the length increase is
strict whenever the received fragment is non-empty. -/
theorem c1_answer_append_only (frags : List String) (n : Nat) :
    answerAfter frags (n + 1) = answerAfter frags n ++ (frags[n]?.getD "") ∧
    (answerAfter frags n).length ≤ (answerAfter frags (n + 1)).length ∧
    ((frags[n]?.getD "") ≠ "" →
      (answerAfter frags n).length < (answerAfter frags (n + 1)).length) := by
  refine ⟨answerAfter_succ frags n, ?_, ?_⟩
  · rw [answerAfter_succ frags n, String.length_append]
    exact Nat.le_add_right _ _
  · intro hne
    rw [answerAfter_succ frags n, String.length_append]
    exact Nat.lt_add_of_pos_right (strLength_pos _ hne)

/-- **C1** witness: concrete instance, one non-empty fragment after an
already accumulated answer. -/
theorem c1_answer_append_only_witness :
    answerAfter ["He", "llo"] 2 = answerAfter ["He", "llo"] 1 ++ "llo" ∧
    (answerAfter ["He", "llo"] 1).length < (answerAfter ["He", "llo"] 2).length :=
  ⟨(c1_answer_append_only ["He", "llo"] 1).1,
    (c1_answer_append_only ["He", "llo"] 1).2.2 (by decide)⟩

/-- **C1** counterexample to the claim as stated: an empty upstream
fragment (fragment sequence `[""]`, first step) leaves the partial-answer
length unchanged, so the observed length is not strictly increasing at
every step. -/
theorem c1_strict_increase_cex :
    ¬ (answerAfter [""] 0).length < (answerAfter [""] 1).length := by decide

/-- **C5**: a request whose `messages` field is missing (falsy) or not an
array is answered with the 400 JSON error before the model is ever
reached: no generation request is issued. -/
theorem c5_invalid_messages_fail_fast (body : MessagesField) (gen : GenCall)
    (h : body = MessagesField.missing ∨ body = MessagesField.notArray) :
    (POST body gen).1 = PostResult.jsonError 400 ∧ genCalls (POST body gen) = 0 := by
  rcases h with h | h <;> subst h <;> exact ⟨rfl, rfl⟩

/-- **C5** witness: a missing `messages` field with a generation service
that would reject — the handler answers 400 and never reaches it. -/
theorem c5_invalid_messages_fail_fast_witness :
    (POST MessagesField.missing GenCall.rejected).1 = PostResult.jsonError 400 ∧
    genCalls (POST MessagesField.missing GenCall.rejected) = 0 :=
  c5_invalid_messages_fail_fast MessagesField.missing GenCall.rejected (Or.inl rfl)

/-- **C8**: an empty `messages` array passes the format validation (an
empty array is truthy and is an array) but the subsequent
`messages[messages.length - 1].content` reads `.content` of `undefined`,
throws, and is caught by the outer catch: the caller receives the 500
JSON error, not the 400 validation error, and no generation request is
ever issued. -/
theorem c8_empty_messages_internal_error (gen : GenCall) :
    (POST (MessagesField.arr []) gen).1 = PostResult.jsonError 500 ∧
    (POST (MessagesField.arr []) gen).1 ≠ PostResult.jsonError 400 ∧
    genCalls (POST (MessagesField.arr []) gen) = 0 := by
  refine ⟨rfl, ?_, rfl⟩
  intro h
  have h2 := PostResult.jsonError.inj h
  omega

/-- **C10**: with a blank (empty or whitespace-only) input, or while a
previous request is in flight, `sendMessage` is a no-op: the React state
is returned unchanged — no message appended, no list change — and no
network request is issued. -/
theorem c10_send_blank_or_loading_noop (st : ChatState) (res : FetchResult)
    (h : isBlank st.input = true ∨ st.isLoading = true) :
    sendMessage st res = (st, false) := by
  unfold sendMessage
  rw [if_pos h]

/-- **C10** witness: whitespace-only input, not loading. -/
theorem c10_send_blank_or_loading_noop_witness :
    sendMessage ⟨[⟨"user", "q"⟩], "   ", false⟩ FetchResult.notOk =
      (⟨[⟨"user", "q"⟩], "   ", false⟩, false) :=
  c10_send_blank_or_loading_noop ⟨[⟨"user", "q"⟩], "   ", false⟩ FetchResult.notOk
    (Or.inl (by decide))

theorem dataTexts_runStream (frags : List String) (failed : Bool) :
    dataTexts (runStream frags failed) = frags := by
  rw [runStream, dataTexts_append, dataTexts_map_data]
  cases failed <;> simp [dataTexts]

theorem countP_isTerminal_runStream (frags : List String) (failed : Bool) :
    (runStream frags failed).countP isTerminal = 1 := by
  rw [runStream, List.countP_append, List.countP_map]
  have h0 : frags.countP (isTerminal ∘ StreamEvent.data) = 0 := by
    simp [List.countP_eq_zero, isTerminal, Function.comp]
  cases failed <;> simp [h0, List.countP_cons, isTerminal]

theorem getLast?_runStream_failed (frags : List String) :
    (runStream frags true).getLast? = some StreamEvent.errEv :=
  List.getLast?_concat _

/-- **C3**: when the upstream generation stream fails after partial
output, every fragment already received is still delivered to the caller
in order (nothing is retracted: the data events are exactly the upstream
fragments), the failure is reported as a single terminal event — the
error — and the handler performs no automatic retry: any request issues
at most one generation call. -/
theorem c3_error_after_partial_no_retract_no_retry (frags : List String)
    (body : MessagesField) (gen : GenCall) :
    dataTexts (runStream frags true) = frags ∧
    (runStream frags true).getLast? = some StreamEvent.errEv ∧
    (runStream frags true).countP isTerminal = 1 ∧
    genCalls (POST body gen) ≤ 1 := by
  refine ⟨dataTexts_runStream frags true, getLast?_runStream_failed frags,
    countP_isTerminal_runStream frags true, ?_⟩
  cases hp : (POST body gen).2 <;> simp [genCalls, hp]

/-- **C2** counterexample to the claim as stated: with the generation
call rejected the route answers JSON 500 and the client fetch is not ok —
but the user-visible message list then ends with the fixed canned apology
rendered as an ordinary assistant message: fabricated text with no error
value anywhere in the displayed state (concrete single-turn input). -/
theorem c2_canned_answer_cex :
    (POST (MessagesField.arr [⟨"user", "hi"⟩]) GenCall.rejected).1 =
      PostResult.jsonError 500 ∧
    (sendMessage ⟨[], "hi", false⟩ FetchResult.notOk).1.messages =
      [⟨"user", "hi"⟩, ⟨"assistant", canned⟩] :=
  ⟨rfl, by decide⟩

/-- **C2 (amended)**: the route surfaces an upstream generation failure
to its HTTP caller as an error, never as answer text: a rejected
generation call yields the JSON 500 error, and a mid-stream failure
delivers only the upstream fragments followed by a terminal error event.
The chat UI, however, replaces the failed exchange with the fixed canned
apology rendered as an assistant message. -/
theorem c2_failure_surfaced_as_error (msgs : List Message) (frags : List String)
    (prev : List Message) (inp : String)
    (hm : msgs ≠ []) (hi : isBlank inp = false) :
    (POST (MessagesField.arr msgs) GenCall.rejected).1 = PostResult.jsonError 500 ∧
    dataTexts (runStream frags true) = frags ∧
    (runStream frags true).getLast? = some StreamEvent.errEv ∧
    (sendMessage ⟨prev, inp, false⟩ FetchResult.notOk).1.messages =
      prev ++ [⟨"user", inp⟩, ⟨"assistant", canned⟩] := by
  obtain ⟨last, hlast⟩ := Option.isSome_iff_exists.mp (List.getLast?_isSome.mpr hm)
  refine ⟨?_, dataTexts_runStream frags true, getLast?_runStream_failed frags, ?_⟩
  · simp [POST, hlast]
  · unfold sendMessage
    rw [if_neg (by simp [hi])]
    simp

/-- **C2** witness for the amended statement. -/
theorem c2_failure_surfaced_as_error_witness :
    (POST (MessagesField.arr [⟨"user", "q"⟩]) GenCall.rejected).1 =
      PostResult.jsonError 500 ∧
    dataTexts (runStream ["par"] true) = ["par"] ∧
    (runStream ["par"] true).getLast? = some StreamEvent.errEv ∧
    (sendMessage ⟨[], "q", false⟩ FetchResult.notOk).1.messages =
      [] ++ [⟨"user", "q"⟩, ⟨"assistant", canned⟩] :=
  c2_failure_surfaced_as_error [⟨"user", "q"⟩] ["par"] [] "q" (by decide) (by decide)

/-- **C4** counterexample to the claim as stated: for an accepted
conversation the handler streams the text fragments and closes; nothing
follows the text stream — the response carries no source-citation list
(concrete single-turn conversation, one fragment). -/
theorem c4_no_citation_list_cex :
    resultEvents (POST (MessagesField.arr [⟨"user", "q"⟩])
        (GenCall.accepted ["a"] false)).1 =
      some [StreamEvent.data "a", StreamEvent.close] ∧
    resultCitations (POST (MessagesField.arr [⟨"user", "q"⟩])
        (GenCall.accepted ["a"] false)).1 = none := by
  exact ⟨rfl, rfl⟩

/-- **C4 (amended)**: for every accepted conversation (non-empty
`messages` array) whose generation call is accepted, the query entry
point produces a text stream — the upstream fragments in order, followed
by exactly one terminal event — with no source-citation list attached;
and it accepts a conversation consisting of a single first user turn,
passing the generation call an empty history. -/
theorem c4_stream_without_citations (msgs : List Message) (frags : List String)
    (failed : Bool) (q : String) (hm : msgs ≠ []) :
    (∃ evs,
      resultEvents (POST (MessagesField.arr msgs) (GenCall.accepted frags failed)).1 =
          some evs ∧
        dataTexts evs = frags ∧ evs.countP isTerminal = 1) ∧
    resultCitations (POST (MessagesField.arr msgs) (GenCall.accepted frags failed)).1 =
      none ∧
    (POST (MessagesField.arr [⟨"user", q⟩]) (GenCall.accepted frags failed)).2 =
      some ⟨[], q⟩ := by
  obtain ⟨last, hlast⟩ := Option.isSome_iff_exists.mp (List.getLast?_isSome.mpr hm)
  refine ⟨⟨runStream frags failed, ?_, dataTexts_runStream frags failed,
    countP_isTerminal_runStream frags failed⟩, ?_, rfl⟩
  · simp [POST, hlast, resultEvents]
  · simp [POST, hlast, resultCitations]

/-- **C4** witness for the amended statement. -/
theorem c4_stream_without_citations_witness :
    (∃ evs,
      resultEvents (POST (MessagesField.arr [⟨"user", "q"⟩])
            (GenCall.accepted ["a"] false)).1 =
          some evs ∧
        dataTexts evs = ["a"] ∧ evs.countP isTerminal = 1) ∧
    resultCitations (POST (MessagesField.arr [⟨"user", "q"⟩])
        (GenCall.accepted ["a"] false)).1 = none ∧
    (POST (MessagesField.arr [⟨"user", "q"⟩]) (GenCall.accepted ["a"] false)).2 =
      some ⟨[], "q"⟩ :=
  c4_stream_without_citations [⟨"user", "q"⟩] ["a"] false "q" (by decide)

/-- **C6**: the conversation history handed to the generation call has
exactly one entry per prior turn, in the original order: its length is
the turn count minus one, its `i`-th entry is the converted `i`-th caller
turn, and the latest caller turn becomes the message sent.  The handler
derives it by `slice`/`map`, which read but never mutate the caller's
array. -/
theorem c6_history_order_preserved (msgs : List Message) (gen : GenCall)
    (req : GenRequest) (h : (POST (MessagesField.arr msgs) gen).2 = some req) :
    req.history.length = msgs.length - 1 ∧
    (∀ i, i < msgs.length - 1 → req.history[i]? = (msgs[i]?).map toHistoryEntry) ∧
    (∀ last, msgs.getLast? = some last → req.latest = last.content) := by
  cases hlast : msgs.getLast? with
  | none => simp [POST, hlast] at h
  | some last =>
    have hreq : req = ⟨msgs.dropLast.map toHistoryEntry, last.content⟩ := by
      cases gen <;> simp [POST, hlast] at h <;> rw [← h] <;>
        simp [List.map_dropLast]
    subst hreq
    refine ⟨by simp, ?_, ?_⟩
    · intro i hi
      simp only [List.getElem?_map, List.dropLast_eq_take]
      rw [List.getElem?_take_of_lt hi]
    · intro last2 h2
      injection h2 with he
      rw [he]

/-- **C6** witness: a three-turn conversation yields a two-entry history
whose first entry is the converted first turn. -/
theorem c6_history_order_preserved_witness :
    (⟨[⟨"user", ["a"]⟩, ⟨"model", ["b"]⟩], "c"⟩ : GenRequest).history.length =
      ([⟨"user", "a"⟩, ⟨"assistant", "b"⟩, ⟨"user", "c"⟩] : List Message).length - 1 ∧
    (⟨[⟨"user", ["a"]⟩, ⟨"model", ["b"]⟩], "c"⟩ : GenRequest).history[0]? =
      (([⟨"user", "a"⟩, ⟨"assistant", "b"⟩, ⟨"user", "c"⟩] : List Message)[0]?).map
        toHistoryEntry :=
  have h := c6_history_order_preserved
    [⟨"user", "a"⟩, ⟨"assistant", "b"⟩, ⟨"user", "c"⟩] (GenCall.accepted [] false)
    ⟨[⟨"user", ["a"]⟩, ⟨"model", ["b"]⟩], "c"⟩ (by decide)
  ⟨h.1, h.2.1 0 (by decide)⟩

/-- **C9** counterexample to the claim as stated: a successfully
completed stream that yielded no fragments never runs an in-loop
`setMessages`, so no assistant message is appended at all — the final
displayed list ends with the user turn, and there is no assistant entry
whose content is the (empty) concatenation. -/
theorem c9_empty_stream_cex :
    (sendMessage ⟨[], "hi", false⟩ (FetchResult.okStream [] false)).1.messages =
      [⟨"user", "hi"⟩] := by decide

/-- **C9 (amended)**: for every successfully completed stream that
delivered at least one fragment, the final assistant message shown to the
user is exactly the concatenation, in arrival order, of all received
fragments; a completed stream with no fragments appends no assistant
message. -/
theorem c9_final_answer_is_concat (st : ChatState) (frags : List String)
    (hg : ¬ (isBlank st.input = true ∨ st.isLoading = true)) (hne : frags ≠ []) :
    (sendMessage st (FetchResult.okStream frags false)).1.messages =
      st.messages ++
        [⟨"user", st.input⟩, ⟨"assistant", answerAfter frags frags.length⟩] ∧
    answerAfter frags frags.length = String.join frags := by
  constructor
  · unfold sendMessage
    rw [if_neg hg]
    simp [hne]
  · unfold answerAfter
    rw [List.take_length]
    rfl

/-- **C9** witness for the amended statement: two fragments, final
assistant content is their in-order concatenation. -/
theorem c9_final_answer_is_concat_witness :
    (sendMessage ⟨[], "hi", false⟩ (FetchResult.okStream ["He", "llo"] false)).1.messages =
      [] ++ [⟨"user", "hi"⟩, ⟨"assistant", answerAfter ["He", "llo"] 2⟩] ∧
    answerAfter ["He", "llo"] 2 = String.join ["He", "llo"] :=
  c9_final_answer_is_concat ⟨[], "hi", false⟩ ["He", "llo"] (by decide) (by decide)

/-- **C7**: for every index state and query, `search(q, k)` fails with
`ConfigError` when `k` is below 1, and otherwise returns results sorted
by non-increasing similarity score containing no duplicate chunk ids
(given the index invariant that chunk ids are unique keys).  Holds for
any choice of similarity metric. -/
theorem c7_search_sorted_nodup (index : List IndexEntry)
    (sim : List Rat → List Rat → Rat) (q : List Rat) (k : Int)
    (hnodup : (index.map IndexEntry.chunkId).Nodup) :
    (k ≤ 0 → search index sim q k = SearchOutcome.configError) ∧
    (0 < k → ∀ res, search index sim q k = SearchOutcome.ok res →
      res.Sorted (fun a b => b.2 ≤ a.2) ∧
      (res.map (fun p => p.1.chunkId)).Nodup) := by
  constructor
  · intro hk
    simp [search, hk]
  · intro hk res hres
    rw [search, if_neg (by omega)] at hres
    injection hres with he
    subst he
    set scored := index.map (fun e => (e, sim e.vec q)) with hscored
    constructor
    · have hs : List.Sorted searchRel (scored.insertionSort searchRel) :=
        List.sorted_insertionSort searchRel scored
      have hw : List.Pairwise (fun a b : IndexEntry × Rat => b.2 ≤ a.2)
          (scored.insertionSort searchRel) := by
        refine hs.imp ?_
        intro a b hab
        rcases hab with hab | ⟨hab, _⟩
        · exact le_of_lt hab
        · exact le_of_eq hab.symm
      exact hw.sublist (List.take_sublist _ _)
    · have h1 : scored.map (fun p : IndexEntry × Rat => p.1.chunkId) =
          index.map IndexEntry.chunkId := by
        rw [hscored, List.map_map]
        rfl
      have hperm := (List.perm_insertionSort searchRel scored).map
        (fun p : IndexEntry × Rat => p.1.chunkId)
      rw [h1] at hperm
      have hnd := hperm.nodup_iff.mpr hnodup
      exact hnd.sublist ((List.take_sublist _ _).map _)

/-- **C7** witness: a two-entry index; `k = 0` fails with `ConfigError`,
and `k = 2` returns both entries sorted descending with distinct ids. -/
theorem c7_search_sorted_nodup_witness :
    search [⟨1, [1], "a", "p"⟩, ⟨2, [3], "b", "p"⟩] (fun v _ => v.headD 0) [] 0 =
      SearchOutcome.configError ∧
    (([(⟨2, [3], "b", "p"⟩, (3 : Rat)), (⟨1, [1], "a", "p"⟩, (1 : Rat))] :
        List (IndexEntry × Rat)).Sorted (fun a b => b.2 ≤ a.2) ∧
      (([(⟨2, [3], "b", "p"⟩, (3 : Rat)), (⟨1, [1], "a", "p"⟩, (1 : Rat))] :
        List (IndexEntry × Rat)).map (fun p => p.1.chunkId)).Nodup) :=
  ⟨(c7_search_sorted_nodup [⟨1, [1], "a", "p"⟩, ⟨2, [3], "b", "p"⟩]
      (fun v _ => v.headD 0) [] 0 (by decide)).1 (by decide),
    (c7_search_sorted_nodup [⟨1, [1], "a", "p"⟩, ⟨2, [3], "b", "p"⟩]
      (fun v _ => v.headD 0) [] 2 (by decide)).2 (by decide) _ (by decide)⟩
